import Mathlib

/-
Verification of the interactive architecture-diagram component
(src/arch_diagram.jsx) against its specification.

The component is shallowly embedded: the static layer/node data and the
language-color table are translated literally; the two `useState` fields
(`active`, `hoveredLayer`) become an explicit `UIState` record; the click
and hover handlers become state transformers; the rendered output that the
specification talks about (layer bands with node buttons, inter-layer
arrows, the detail panel) is modelled as pure functions of the state.
-/

namespace ArchDiagram

/-- A node of the diagram: identifier, display label, language tag and
description, exactly as in the `LAYERS` literal of the source. -/
structure Node where
  id : String
  label : String
  lang : String
  desc : String
deriving DecidableEq, Repr

/-- A layer of the diagram: identifier, display label, accent color and its
ordered list of nodes. -/
structure Layer where
  id : String
  label : String
  color : String
  nodes : List Node
deriving DecidableEq, Repr

def syslogNode : Node :=
  { id := "syslog", label := "Syslog UDP/TCP", lang := "Python",
    desc := "RFC 3164/5424 listener. Asyncio datagram endpoint — zero-copy reads, no threads." }

def cloudtrailNode : Node :=
  { id := "cloudtrail", label := "AWS CloudTrail", lang := "Python",
    desc := "S3 poller with watermark tracking. Gzip decompression, paginated list_objects_v2." }

def webhookNode : Node :=
  { id := "webhook", label := "Webhook / HTTP", lang := "Python",
    desc := "FastAPI receiver for EDR, SaaS, and third-party security tools pushing events." }

def goagentNode : Node :=
  { id := "goagent", label := "Go Collector Agent", lang := "Go",
    desc := "Deployed on customer infra. Goroutines + channels for high-throughput local collection, gRPC egress." }

def queueNode : Node :=
  { id := "queue", label := "Async Event Queue", lang := "Python",
    desc := "asyncio.Queue (maxsize=10k). Backpressure-aware. Buffers bursts between sources and consumers." }

def parserNode : Node :=
  { id := "parser", label := "Rust Log Parser", lang := "Rust",
    desc := "Parses CEF, LEEF, JSON, syslog at wire rate. Memory-safe handling of untrusted input. Emits structured records." }

def normalizerNode : Node :=
  { id := "normalizer", label := "Normalizer", lang := "Python",
    desc := "Maps parsed fields to NormalizedEvent schema (ECS-inspired). Pydantic validation, timestamp normalization." }

def registryNode : Node :=
  { id := "registry", label := "Schema Registry", lang := "Python",
    desc := "Per-source field requirements. Quarantines malformed events. Tracks field coverage over time." }

def filesinkNode : Node :=
  { id := "filesink", label := "File Sink (NDJSON)", lang := "Python",
    desc := "MVP sink: batched writes to newline-delimited JSON. Rotate to S3 or Kafka when volume justifies it." }

def monitorNode : Node :=
  { id := "monitor", label := "Pipeline Monitor", lang := "Python",
    desc := "Tracks throughput per source. Fires alerts on data gaps (default: 5min silence = ALERT). Prometheus-ready." }

def sourcesLayer : Layer :=
  { id := "sources", label := "DATA SOURCES", color := "#00ff9d",
    nodes := [syslogNode, cloudtrailNode, webhookNode, goagentNode] }

def ingestLayer : Layer :=
  { id := "ingest", label := "INGESTION LAYER", color := "#00cfff",
    nodes := [queueNode, parserNode] }

def validationLayer : Layer :=
  { id := "validation", label := "SCHEMA & VALIDATION", color := "#ff9d00",
    nodes := [normalizerNode, registryNode] }

def sinkLayer : Layer :=
  { id := "sink", label := "SINK & OBSERVABILITY", color := "#ff4d8f",
    nodes := [filesinkNode, monitorNode] }

/-- The static layer data, in declaration order. -/
def LAYERS : List Layer := [sourcesLayer, ingestLayer, validationLayer, sinkLayer]

/-- A language style: the color triple (background, border, text). -/
structure LangColor where
  bg : String
  border : String
  text : String
deriving DecidableEq, Repr

/-- The `LANG_COLORS` table; indexing a JS object with a missing key yields
`undefined`, modelled here by `Option`. -/
def LANG_COLORS : String → Option LangColor := fun lang =>
  if lang = "Python" then some { bg := "#1a2a1a", border := "#00ff9d", text := "#00ff9d" }
  else if lang = "Go" then some { bg := "#1a1f2a", border := "#00cfff", text := "#00cfff" }
  else if lang = "Rust" then some { bg := "#2a1a1a", border := "#ff6b35", text := "#ff6b35" }
  else none

/-- JS `String.prototype.toUpperCase` on the ASCII language tags, modelled as
an uppercase map over the characters. -/
def toUpperCase (s : String) : String := ⟨s.data.map Char.toUpper⟩

/-- The component's mutable UI state: the two `useState` fields `active`
(the selected node id, spec name `selectedNodeId`) and `hoveredLayer`
(spec name `hoveredLayerId`). -/
structure UIState where
  active : Option String
  hoveredLayer : Option String
deriving DecidableEq, Repr

/-- Both `useState(null)` initializers. -/
def initialState : UIState := { active := none, hoveredLayer := none }

/-- The node button's click handler: `setActive(isActive ? null : node.id)`
with `isActive = active === node.id`. -/
def selectNode (id : String) (s : UIState) : UIState :=
  { s with active := if s.active = some id then none else some id }

/-- The layer band's hover handlers: `onMouseEnter` passes `some id`,
`onMouseLeave` passes `none`, and the handler is `setHoveredLayer`. -/
def hoverLayer (v : Option String) (s : UIState) : UIState :=
  { s with hoveredLayer := v }

/-- The flattened node sequence `LAYERS.flatMap(l => l.nodes)`. -/
def allNodes : List Node := LAYERS.flatMap fun l => l.nodes

/-- `LAYERS.flatMap(l => l.nodes).find(n => n.id === active)`: the active
node looked up from the selected id (spec name `lookupActiveNode`). -/
def activeNode (sel : Option String) : Option Node :=
  allNodes.find? fun n => some n.id == sel

/-- The detail panel's content: either the placeholder prompt, or the active
node's label, uppercased language badge (with its color triple looked up in
`LANG_COLORS`) and description. -/
inductive PanelView where
  | placeholder (text : String)
  | detail (label badge desc : String) (badgeColor : Option LangColor)
deriving DecidableEq, Repr

/-- The detail panel as rendered from the selected id. -/
def detailPanel (sel : Option String) : PanelView :=
  match activeNode sel with
  | some n => PanelView.detail n.label (toUpperCase n.lang) n.desc (LANG_COLORS n.lang)
  | none => PanelView.placeholder "▸ SELECT A NODE TO INSPECT"

/-- The selection-dependent inline styles of a node button (source lines
154-170): background, border, box shadow, transform and label color. -/
structure NodeStyle where
  background : String
  border : String
  boxShadow : String
  transform : String
  labelColor : String
deriving DecidableEq, Repr

/-- The node button style as a function of the layer accent color and the
`isActive` flag, translated from the JSX style object. -/
def nodeStyle (layerColor : String) (isActive : Bool) : NodeStyle :=
  { background := if isActive then layerColor ++ "15" else "rgba(255,255,255,0.02)"
    border := "1px solid " ++ (if isActive then layerColor else "rgba(255,255,255,0.08)")
    boxShadow := if isActive then "0 0 20px " ++ layerColor ++ "20" else "none"
    transform := if isActive then "translateY(-1px)" else "none"
    labelColor := if isActive then "#fff" else "#b0c4d4" }

/-- The hover-dependent inline styles of a layer band (source lines
114-120): border and background. -/
structure LayerStyle where
  border : String
  background : String
deriving DecidableEq, Repr

/-- The layer band style as a function of the layer accent color and whether
the layer is hovered, translated from the JSX style object. -/
def layerStyle (layerColor : String) (isHovered : Bool) : LayerStyle :=
  { border := "1px solid " ++ (if isHovered then layerColor else "rgba(255,255,255,0.06)")
    background := if isHovered then layerColor ++ "08" else "rgba(255,255,255,0.01)" }

/-- The rendered view of one node button. -/
structure NodeView where
  id : String
  style : NodeStyle
  labelText : String
  badgeText : String
  badgeColor : Option LangColor
deriving DecidableEq, Repr

/-- The rendered view of one layer band. -/
structure LayerView where
  id : String
  style : LayerStyle
  header : String
  nodes : List NodeView
deriving DecidableEq, Repr

/-- An item of the rendered column: a layer band or the inter-layer arrow. -/
inductive RenderItem where
  | layerBox (v : LayerView)
  | arrow
deriving DecidableEq, Repr

/-- Rendering of one node button (source lines 147-183). -/
def nodeButton (sel : Option String) (layerColor : String) (n : Node) : NodeView :=
  { id := n.id
    style := nodeStyle layerColor (decide (sel = some n.id))
    labelText := n.label
    badgeText := toUpperCase n.lang
    badgeColor := LANG_COLORS n.lang }

/-- Rendering of one layer band (source lines 111-186). -/
def layerBand (sel hov : Option String) (layer : Layer) : LayerView :=
  { id := layer.id
    style := layerStyle layer.color (decide (hov = some layer.id))
    header := layer.label
    nodes := layer.nodes.map (nodeButton sel layer.color) }

/-- The rendered column: `LAYERS.map((layer, li) => ...)` produces each layer
band followed by an arrow when `li < LAYERS.length - 1` (source lines
108-203). -/
def renderItems (sel hov : Option String) : List RenderItem :=
  LAYERS.enum.flatMap fun p =>
    RenderItem.layerBox (layerBand sel hov p.2) ::
      (if p.1 < LAYERS.length - 1 then [RenderItem.arrow] else [])

/-- First node of a list whose id is the given one; the scan described by
the spec for `lookupActiveNode`. -/
def firstWithId (i : String) : List Node → Option Node
  | [] => none
  | n :: rest => if n.id = i then some n else firstWithId i rest

/-- Modelled from the spec: `lookupActiveNode` "scans the flattened sequence
of all nodes across all layers and returns the first match, or none if
`selectedNodeId` is none or matches nothing". -/
def lookupActiveNodeSpec (sel : Option String) : Option Node :=
  match sel with
  | none => none
  | some i => firstWithId i allNodes

/-- C1 counterexample: starting from the state in which "parser" is already
selected, two consecutive clicks on "parser" leave it selected again, not
none, refuting the claim for arbitrary starting states. -/
theorem selectNode_double_click_counterexample :
    ¬ (selectNode "parser" (selectNode "parser"
        { active := some "parser", hoveredLayer := none })).active = none := by
  decide

/-- C1 (amended): `selectNode n` sets the selection to `n` when `n` is not
currently selected and clears it to none when it is; hence two consecutive
clicks on the same node, starting from any state in which that node is not
already selected, leave the selection at none. -/
theorem selectNode_toggle (n : String) (s : UIState) :
    (s.active ≠ some n → (selectNode n s).active = some n) ∧
    (s.active = some n → (selectNode n s).active = none) ∧
    (s.active ≠ some n → (selectNode n (selectNode n s)).active = none) := by
  refine ⟨?_, ?_, ?_⟩ <;> intro h <;> simp [selectNode, h]

/-- Witness for C1's amended theorem: two clicks on "parser" from the
initial state end unselected, and one click on "parser" when it is already
selected clears the selection. -/
theorem selectNode_toggle_witness :
    initialState.active ≠ some "parser" ∧
    (selectNode "parser" (selectNode "parser" initialState)).active = none ∧
    (selectNode "parser" { active := some "parser", hoveredLayer := none }).active = none :=
  ⟨by decide, (selectNode_toggle "parser" initialState).2.2 (by decide),
    (selectNode_toggle "parser" { active := some "parser", hoveredLayer := none }).2.1 rfl⟩

/-- C2: selecting `n1` then `n2` with `n1 ≠ n2` leaves exactly `n2`
selected, and the single `active` field can name at most one selected node
in any state. -/
theorem selection_exclusive (n1 n2 : String) (s : UIState) (h : n1 ≠ n2) :
    (selectNode n2 (selectNode n1 s)).active = some n2 ∧
    (selectNode n2 (selectNode n1 s)).active ≠ some n1 ∧
    (∀ m1 m2 : String, s.active = some m1 → s.active = some m2 → m1 = m2) := by
  refine ⟨?_, ?_, ?_⟩
  · by_cases h1 : s.active = some n1 <;> simp [selectNode, h1, h, Ne.symm h]
  · by_cases h1 : s.active = some n1 <;> simp [selectNode, h1, h, Ne.symm h]
  · intro m1 m2 hm1 hm2
    rw [hm1] at hm2
    exact Option.some.inj hm2

/-- Witness for C2's theorem at the distinct nodes "parser" and "queue". -/
theorem selection_exclusive_witness :
    ("parser" : String) ≠ "queue" ∧
    (selectNode "queue" (selectNode "parser" initialState)).active = some "queue" :=
  ⟨by decide, (selection_exclusive "parser" "queue" initialState (by decide)).1⟩

/-- C3: the detail panel is a pure function of the selected id: no selection
(or one matching no node) renders the placeholder prompt, and a matching
selection renders exactly the matching node's label, uppercased language
badge and description. -/
theorem detail_panel_contract (sel : Option String) :
    (detailPanel none = PanelView.placeholder "▸ SELECT A NODE TO INSPECT") ∧
    (activeNode sel = none →
      detailPanel sel = PanelView.placeholder "▸ SELECT A NODE TO INSPECT") ∧
    (∀ n : Node, activeNode sel = some n →
      detailPanel sel =
        PanelView.detail n.label (toUpperCase n.lang) n.desc (LANG_COLORS n.lang) ∧
      some n.id = sel) := by
  refine ⟨rfl, ?_, ?_⟩
  · intro h
    simp [detailPanel, h]
  · intro n h
    refine ⟨by simp [detailPanel, h], ?_⟩
    simp only [activeNode] at h
    simpa using List.find?_some h

/-- Witness for C3's theorem at the selection "parser". -/
theorem detail_panel_contract_witness :
    activeNode (some "parser") = some parserNode ∧
    (detailPanel (some "parser") =
      PanelView.detail parserNode.label (toUpperCase parserNode.lang) parserNode.desc
        (LANG_COLORS parserNode.lang) ∧
      some parserNode.id = some "parser") :=
  ⟨by decide, (detail_panel_contract (some "parser")).2.2 parserNode (by decide)⟩

/-- Auxiliary: `find?` with an id-equality predicate is exactly the spec's
first-match scan. -/
lemma find?_eq_firstWithId (i : String) (l : List Node) :
    l.find? (fun n => some n.id == some i) = firstWithId i l := by
  induction l with
  | nil => rfl
  | cons n rest ih =>
    by_cases h : n.id = i
    · simp [List.find?_cons, firstWithId, h]
    · simpa [List.find?_cons, firstWithId, h] using ih

/-- C4: the active-node lookup equals the spec's scan — the first node of
the flattened sequence whose id is the selected one, none when nothing is
selected or nothing matches — and the flattened sequence is in layer
declaration order with node declaration order inside each layer. -/
theorem lookupActiveNode_refines_spec (sel : Option String) :
    activeNode sel = lookupActiveNodeSpec sel ∧
    allNodes.map Node.id =
      ["syslog", "cloudtrail", "webhook", "goagent", "queue", "parser",
       "normalizer", "registry", "filesink", "monitor"] := by
  refine ⟨?_, by decide⟩
  cases sel with
  | none => rfl
  | some i => exact find?_eq_firstWithId i allNodes

/-- C5: `hoverLayer` writes `hoveredLayer` directly with no toggle
semantics: entering a layer sets its id, leaving clears to none, regardless
of the prior state. -/
theorem hoverLayer_direct (v : Option String) (i : String) (s : UIState) :
    (hoverLayer v s).hoveredLayer = v ∧
    (hoverLayer (some i) s).hoveredLayer = some i ∧
    (hoverLayer none s).hoveredLayer = none :=
  ⟨rfl, rfl, rfl⟩

/-- Badge lookup of a rendered node button is defined. -/
def nodeViewBadgeResolved (nv : NodeView) : Bool := nv.badgeColor.isSome

/-- Badge lookups inside one rendered column item are all defined. -/
def itemBadgesResolved : RenderItem → Bool
  | RenderItem.layerBox v => v.nodes.all nodeViewBadgeResolved
  | RenderItem.arrow => true

/-- Badge lookup of the rendered detail panel is defined. -/
def panelBadgeResolved : PanelView → Bool
  | PanelView.placeholder _ => true
  | PanelView.detail _ _ _ bc => bc.isSome

/-- C6: every node's language tag has an entry in `LANG_COLORS`, so every
badge style lookup in the rendered output — the node badges and the
detail-panel badge — resolves to a defined color triple. -/
theorem lang_tags_all_styled :
    (allNodes.all fun n => (LANG_COLORS n.lang).isSome) = true ∧
    (∀ sel hov : Option String, (renderItems sel hov).all itemBadgesResolved = true) ∧
    (∀ sel : Option String, panelBadgeResolved (detailPanel sel) = true) := by
  refine ⟨by decide, ?_, ?_⟩
  · intro sel hov
    rfl
  · intro sel
    cases h : activeNode sel with
    | none => simp [detailPanel, panelBadgeResolved, h]
    | some n =>
      have hn : n ∈ allNodes := by
        simp only [activeNode] at h
        exact List.mem_of_find?_eq_some h
      have hall : ∀ m ∈ allNodes, (LANG_COLORS m.lang).isSome = true := by decide
      simp [detailPanel, panelBadgeResolved, h, hall n hn]

/-- C7: node identifiers are globally unique across all layers, so lookup
by id is unambiguous. -/
theorem node_ids_globally_unique : (allNodes.map Node.id).Nodup := by decide

/-- C8: from the initial state, clicking "parser" selects it; the detail
panel then shows label "Rust Log Parser", badge "RUST" and the parser
node's description, and the "parser" node button renders with its layer's
emphasized styling. -/
theorem parser_click_scenario :
    (selectNode "parser" initialState).active = some "parser" ∧
    detailPanel (selectNode "parser" initialState).active =
      PanelView.detail "Rust Log Parser" "RUST"
        "Parses CEF, LEEF, JSON, syslog at wire rate. Memory-safe handling of untrusted input. Emits structured records."
        (some { bg := "#2a1a1a", border := "#ff6b35", text := "#ff6b35" }) ∧
    parserNode ∈ ingestLayer.nodes ∧ ingestLayer ∈ LAYERS ∧
    (nodeButton (selectNode "parser" initialState).active ingestLayer.color parserNode).style =
      nodeStyle ingestLayer.color true := by
  refine ⟨rfl, by decide, by decide, by decide, by decide⟩

/-- Auxiliary: the node style produced from the selection test is the
emphasized style exactly when the node is the selected one. -/
lemma nodeStyle_toggle (c i : String) (sel : Option String) :
    nodeStyle c (decide (sel = some i)) = nodeStyle c true ↔ sel = some i := by
  by_cases h : sel = some i
  · simp [h]
  · simp [h]
    intro hc
    have h2 : ("#b0c4d4" : String) = "#fff" := congrArg NodeStyle.labelColor hc
    exact absurd h2 (by decide)

/-- Auxiliary: the layer style produced from the hover test is the
emphasized style exactly when the layer is the hovered one, provided the
emphasized and plain styles differ. -/
lemma layerStyle_toggle (c i : String) (hov : Option String)
    (hne : layerStyle c false ≠ layerStyle c true) :
    (layerStyle c (decide (hov = some i)) = layerStyle c true ↔ hov = some i) := by
  by_cases h : hov = some i
  · simp [h]
  · simp [h]
    exact hne

/-- C9: the rendered column is the four layer bands in declaration order
with one arrow between each consecutive pair and none after the last; a
node button carries the emphasized styling iff its id is the selected one,
and a layer band carries its emphasized styling iff its id is the hovered
one. -/
theorem render_visual_contract (sel hov : Option String) :
    renderItems sel hov =
      [RenderItem.layerBox (layerBand sel hov sourcesLayer), RenderItem.arrow,
       RenderItem.layerBox (layerBand sel hov ingestLayer), RenderItem.arrow,
       RenderItem.layerBox (layerBand sel hov validationLayer), RenderItem.arrow,
       RenderItem.layerBox (layerBand sel hov sinkLayer)] ∧
    (∀ layer : Layer, ∀ n : Node,
      ((nodeButton sel layer.color n).style = nodeStyle layer.color true ↔ sel = some n.id)) ∧
    (∀ layer : Layer, layer ∈ LAYERS →
      ((layerBand sel hov layer).style = layerStyle layer.color true ↔ hov = some layer.id)) := by
  refine ⟨rfl, ?_, ?_⟩
  · intro layer n
    exact nodeStyle_toggle layer.color n.id sel
  · intro layer hl
    have hl' : layer = sourcesLayer ∨ layer = ingestLayer ∨
        layer = validationLayer ∨ layer = sinkLayer := by
      simpa [LAYERS] using hl
    rcases hl' with rfl | rfl | rfl | rfl
    · exact layerStyle_toggle _ _ hov (by decide)
    · exact layerStyle_toggle _ _ hov (by decide)
    · exact layerStyle_toggle _ _ hov (by decide)
    · exact layerStyle_toggle _ _ hov (by decide)

/-- Witness for C9's theorem: with "parser" selected and "sources" hovered,
the sources layer band carries its emphasized styling. -/
theorem render_visual_contract_witness :
    sourcesLayer ∈ LAYERS ∧
    ((layerBand (some "parser") (some "sources") sourcesLayer).style =
        layerStyle sourcesLayer.color true ↔
      (some "sources" : Option String) = some "sources") :=
  ⟨by decide,
    (render_visual_contract (some "parser") (some "sources")).2.2 sourcesLayer (by decide)⟩

/-- C10: the two state fields are independent: clicking a node never
changes the hovered layer, and hover events never change the selection. -/
theorem state_fields_independent (i : String) (v : Option String) (s : UIState) :
    (selectNode i s).hoveredLayer = s.hoveredLayer ∧
    (hoverLayer v s).active = s.active :=
  ⟨rfl, rfl⟩

end ArchDiagram
